import Mathlib

/-!
Shallow embedding of the room-pool and session-lifecycle code of the
repository: the `RoomPool` in `server/voice-ai-service/utils/room_pool.py`
together with the FastAPI handlers in `server/voice-ai-service/src/server.py`
(namespace `VoiceAI`), and the `RoomPool` / `BotManager` pair in
`ex/instant-voice/server/src/server.py` (namespace `IV`).

External provisioning calls are modelled by a `ProvisionEnv` that fixes the
outcome of the room-creation call and of the two token mints; `none` models
any falsy outcome (non-200 response, network exception, missing field).
Side effects on the outside world are recorded in the state: `deletes`
lists the room urls for which a room-delete call was issued, `terms` and
`kills` list the subprocess pids that received a terminate signal or a
forced kill, `addRoomCalls` counts synchronous executions of `add_room`,
and `bgTasks` counts background replenishment tasks that were scheduled
with `asyncio.create_task`.  Everything runs on one asyncio event loop, so
code between `await` points executes atomically; the pool lock of the
voice-ai-service pool is modelled by the `lockHeld` flag, and an `await`
on that lock while the running call itself already holds it can never
resume (asyncio locks are not reentrant and no other task can release
them), modelled by the `blocked` outcome.
-/

/-- One pool entry: a room url plus the two minted tokens, as appended by
`add_room` in both implementations. -/
structure RoomEntry where
  room_url : String
  user_token : String
  bot_token : String
deriving DecidableEq, Repr

/-- Outcomes of the three external provisioning calls made by one
`add_room` execution: the room creation and the two token mints.  `none`
stands for any falsy result (the Python code tests `if not x`). -/
structure ProvisionEnv where
  createRoom : Option String
  userTok : Option String
  botTok : Option String
deriving DecidableEq, Repr

namespace VoiceAI

/-- State of the `RoomPool` of `server/voice-ai-service/utils/room_pool.py`
plus the record of its externally visible effects. -/
structure PoolState where
  pool : List RoomEntry
  lockHeld : Bool
  deletes : List String
  addRoomCalls : Nat
  bgTasks : Nat
deriving DecidableEq, Repr

/-- `add_room` catches every exception, so it either completes or is stuck
forever on the pool lock. -/
inductive AddRoomResult where
  | done (s : PoolState)
  | blocked (s : PoolState)
deriving DecidableEq, Repr

/-- `RoomPool.add_room`: create the room; on a falsy url, return.  Mint the
user token and then the bot token; if either is falsy, delete the room and
return.  Otherwise append the entry to the pool under `async with
self.lock` — an acquisition that never resumes when the running call
already holds the lock. -/
def addRoom (env : ProvisionEnv) (s : PoolState) : AddRoomResult :=
  let s := { s with addRoomCalls := s.addRoomCalls + 1 }
  match env.createRoom with
  | none => .done s
  | some url =>
    match env.userTok, env.botTok with
    | some ut, some bt =>
      if s.lockHeld then
        .blocked s
      else
        .done { s with pool := s.pool ++ [⟨url, ut, bt⟩] }
    | _, _ => .done { s with deletes := s.deletes ++ [url] }

/-- Result of `RoomPool.get_room`: a room, an `HTTPException`, or a call
that never returns because it is stuck on the pool lock. -/
inductive GetRoomResult where
  | ok (room : RoomEntry) (s : PoolState)
  | httpError (status : Nat) (detail : String) (s : PoolState)
  | blocked (s : PoolState)
deriving DecidableEq, Repr

/-- The pool state carried by a `GetRoomResult`. -/
def GetRoomResult.state : GetRoomResult → PoolState
  | .ok _ s => s
  | .httpError _ _ s => s
  | .blocked s => s

/-- Whether a `GetRoomResult` hands an entry to the caller. -/
def GetRoomResult.isOk : GetRoomResult → Bool
  | .ok _ _ => true
  | _ => false

/-- `RoomPool.get_room`: acquire the lock (free at entry: the handlers call
it from the event loop with no other holder in the modelled runs); if the
pool is empty, run `add_room` synchronously while still holding the lock;
if the pool is then still empty, raise `HTTPException(503)` (the context
manager releases the lock).  Otherwise pop index 0, release the lock, and
schedule one background `add_room` task. -/
def getRoom (env : ProvisionEnv) (s : PoolState) : GetRoomResult :=
  let s := { s with lockHeld := true }
  match s.pool with
  | [] =>
    match addRoom env s with
    | .blocked s1 => .blocked s1
    | .done s1 =>
      match s1.pool with
      | [] => .httpError 503 "No available rooms" { s1 with lockHeld := false }
      | r :: rest =>
        .ok r { s1 with pool := rest, lockHeld := false, bgTasks := s1.bgTasks + 1 }
  | r :: rest =>
    .ok r { s with pool := rest, lockHeld := false, bgTasks := s.bgTasks + 1 }

/-- `RoomPool.cleanup`: schedule a delete for every pooled room, await them
all, then reset `self.pool` to the empty list. -/
def cleanup (s : PoolState) : PoolState :=
  { s with deletes := s.deletes ++ s.pool.map (fun r => r.room_url), pool := [] }

/-- State of the FastAPI layer of `server/voice-ai-service/src/server.py`:
the `active_bots` registry keyed by session id, plus the pool. -/
structure ServerState where
  activeBots : List String
  poolState : PoolState
deriving DecidableEq, Repr

/-- The `disconnect` handler: an unknown session id returns success at
once; a known one cancels the pipeline task of the bot (no provisioning
call is made anywhere on this path) and removes the registry entry, again
returning success. -/
def disconnect (sid : String) (s : ServerState) : Bool × ServerState :=
  if sid ∈ s.activeBots then
    (true, { s with activeBots := s.activeBots.erase sid })
  else
    (true, s)

/-- Result of the `connect` handler. -/
inductive ConnectResult where
  | ok (session_id : String) (room_url : String) (token : String) (s : ServerState)
  | httpError (status : Nat) (detail : String) (s : ServerState)
  | blocked (s : ServerState)
deriving DecidableEq, Repr

/-- The `connect` handler with a configured pool: call `get_room` inside a
blanket `try`; any exception — including the `HTTPException(503)` raised on
exhaustion — is rewrapped as `HTTPException(500, str(e))`, where `str` of a
starlette `HTTPException` is the string "status: detail".  On success the
handler registers the fresh session id and returns it with the room url
and the user token. -/
def connect (env : ProvisionEnv) (sid : String) (s : ServerState) : ConnectResult :=
  match getRoom env s.poolState with
  | .httpError st d ps =>
    .httpError 500 (toString st ++ ": " ++ d) { s with poolState := ps }
  | .blocked ps => .blocked { s with poolState := ps }
  | .ok room ps =>
    .ok sid room.room_url room.user_token
      { s with poolState := ps, activeBots := s.activeBots ++ [sid] }

/-- The server state carried by a `ConnectResult`. -/
def ConnectResult.state : ConnectResult → ServerState
  | .ok _ _ _ s => s
  | .httpError _ _ s => s
  | .blocked s => s

end VoiceAI

namespace IV

/-- State of the `RoomPool` of `ex/instant-voice/server/src/server.py`.
Its lock is only ever taken for the duration of a single append or pop and
its callers never hold it across those calls, so no flag is needed. -/
structure PoolState where
  pool : List RoomEntry
  deletes : List String
  addRoomCalls : Nat
  bgTasks : Nat
deriving DecidableEq, Repr

/-- `RoomPool.add_room` (instant-voice): create the room and mint the two
tokens; a falsy url or token raises `HTTPException(500)`, which the
blanket `except Exception` catches and prints.  No delete call is issued
on any failure path, so a room whose token mint failed is simply left
behind.  On full success the entry is appended under the lock. -/
def addRoom (env : ProvisionEnv) (s : PoolState) : PoolState :=
  let s := { s with addRoomCalls := s.addRoomCalls + 1 }
  match env.createRoom with
  | none => s
  | some url =>
    match env.userTok, env.botTok with
    | some ut, some bt => { s with pool := s.pool ++ [⟨url, ut, bt⟩] }
    | _, _ => s

/-- Result of `RoomPool.get_room` (instant-voice). -/
inductive GetRoomResult where
  | ok (room : RoomEntry) (s : PoolState)
  | httpError (status : Nat) (detail : String) (s : PoolState)
deriving DecidableEq, Repr

/-- `RoomPool.get_room` (instant-voice): an empty pool raises
`HTTPException(503)` immediately — there is no on-demand creation attempt.
Otherwise pop index 0 and schedule one background `add_room` task. -/
def getRoom (s : PoolState) : GetRoomResult :=
  match s.pool with
  | [] => .httpError 503 "No available rooms" s
  | r :: rest => .ok r { s with pool := rest, bgTasks := s.bgTasks + 1 }

/-- `RoomPool.cleanup` (instant-voice): await a delete for every pooled
room, one after the other.  The body never resets `self.pool`, so the
buffer keeps its entries after the call. -/
def cleanup (s : PoolState) : PoolState :=
  { s with deletes := s.deletes ++ s.pool.map (fun r => r.room_url) }

/-- State of `BotManager`: the `bot_procs` keys, the `room_mappings`
assoc list, and the record of delete calls, terminate signals and forced
kills issued so far.  The source never calls a forced kill, so `kills`
is only ever read. -/
structure BotState where
  botProcs : List Nat
  roomMappings : List (Nat × String)
  deletes : List String
  terms : List Nat
  kills : List Nat
deriving DecidableEq, Repr

/-- Lookup of a key in the mapping, the read half of
`dict.pop(pid, None)`. -/
def lookupKey (pid : Nat) : List (Nat × String) → Option String
  | [] => none
  | p :: t => if p.1 = pid then some p.2 else lookupKey pid t

/-- Removal of a key from the mapping, the write half of
`dict.pop(pid, None)`. -/
def removeKey (pid : Nat) : List (Nat × String) → List (Nat × String)
  | [] => []
  | p :: t => if p.1 = pid then removeKey pid t else p :: removeKey pid t

/-- `BotManager._monitor_process`, resumed after `await proc.wait()`
returns: pop the room mapping for the pid; when it was present, delete
that room; finally drop the `bot_procs` entry.  The pop is the sole guard
against a concurrent release. -/
def monitorFinish (pid : Nat) (s : BotState) : BotState :=
  if pid ∈ s.botProcs then
    match IV.lookupKey pid s.roomMappings with
    | some url =>
      { s with roomMappings := removeKey pid s.roomMappings,
               deletes := s.deletes ++ [url],
               botProcs := s.botProcs.erase pid }
    | none =>
      { s with roomMappings := removeKey pid s.roomMappings,
               botProcs := s.botProcs.erase pid }
  else s

/-- One loop iteration of `BotManager.cleanup` for a pid: send
`proc.terminate()`, then `await asyncio.wait_for(proc.wait(), timeout=5)`.
`exitsInTime` says whether the wait returned before the 5-unit timeout.
If it did, pop the mapping and delete the mapped room; on a TimeoutError
the code only prints a line — no forced kill, no pop, no delete. -/
def cleanupEntry (pid : Nat) (exitsInTime : Bool) (s : BotState) : BotState :=
  let s := { s with terms := s.terms ++ [pid] }
  if exitsInTime then
    match IV.lookupKey pid s.roomMappings with
    | some url =>
      { s with roomMappings := removeKey pid s.roomMappings,
               deletes := s.deletes ++ [url] }
    | none => s
  else s

/-- `BotManager.cleanup`: iterate over a snapshot of `bot_procs`, run one
`cleanupEntry` per pid (`exits` telling which workers exit within the
timeout), then clear both maps unconditionally. -/
def botCleanup (exits : Nat → Bool) (s : BotState) : BotState :=
  let s1 := s.botProcs.foldl (fun acc pid => cleanupEntry pid (exits pid) acc) s
  { s1 with botProcs := [], roomMappings := [] }

/-- Result of the `bot_connect` handler.  `jsonError` is the plain dict
returned from the `except HTTPException` branch; FastAPI serves it with
HTTP status 200. -/
inductive ConnectHttp where
  | jsonOk (room_url : String) (token : String)
  | jsonError (msg : String)
deriving DecidableEq, Repr

/-- The `bot_connect` handler: `get_room`, then `start_bot`.  A spawn
failure raises `HTTPException(500, "Failed to start subprocess: e")`; the
handler catches any `HTTPException` and returns a dict `\x7b"error":
str(e)\x7d`.  Neither failure branch issues a delete for the room that a
successful `get_room` already popped.  On success the pid is recorded in
both maps and a monitor task is started. -/
def botConnect (spawnOk : Bool) (spawnErr : String) (pid : Nat)
    (ps : PoolState) (bs : BotState) : ConnectHttp × PoolState × BotState :=
  match getRoom ps with
  | .httpError st d ps1 => (.jsonError (toString st ++ ": " ++ d), ps1, bs)
  | .ok room ps1 =>
    if spawnOk then
      (.jsonOk room.room_url room.user_token, ps1,
        { bs with botProcs := bs.botProcs ++ [pid],
                  roomMappings := bs.roomMappings ++ [(pid, room.room_url)] })
    else
      (.jsonError ("500: Failed to start subprocess: " ++ spawnErr), ps1, bs)

end IV

/-- After a key is popped from the mapping, a second lookup of that key
finds nothing — the basis of the pop-based mutual exclusion between the
monitor and the shutdown cleanup. -/
theorem lookup_removeKey (pid : Nat) (m : List (Nat × String)) :
    IV.lookupKey pid (IV.removeKey pid m) = none := by
  induction m with
  | nil => rfl
  | cons p t ih =>
    by_cases h : p.1 = pid
    · simpa [IV.removeKey, h] using ih
    · simpa [IV.removeKey, IV.lookupKey, h] using ih

/-- C3: a `get_room` call that finds the buffer empty and whose on-demand
room creation and both token mints succeed never returns: `get_room`
holds the non-reentrant pool lock across its await of `add_room`, and
`add_room` must acquire that same lock before appending, so the append
blocks forever. -/
theorem getRoom_deadlock_on_successful_fallback (s : VoiceAI.PoolState)
    (url ut bt : String) (hs : s.pool = []) :
    VoiceAI.getRoom ⟨some url, some ut, some bt⟩ s
      = .blocked { s with lockHeld := true,
                          addRoomCalls := s.addRoomCalls + 1 } := by
  unfold VoiceAI.getRoom VoiceAI.addRoom
  simp [hs]

/-- Witness for C3 at a concrete empty pool. -/
theorem getRoom_deadlock_on_successful_fallback_w :
    VoiceAI.getRoom ⟨some "https://x.daily.co/r1", some "ut", some "bt"⟩
        { pool := [], lockHeld := false, deletes := [],
          addRoomCalls := 0, bgTasks := 0 }
      = .blocked { pool := [], lockHeld := true, deletes := [],
                   addRoomCalls := 1, bgTasks := 0 } :=
  getRoom_deadlock_on_successful_fallback
    { pool := [], lockHeld := false, deletes := [],
      addRoomCalls := 0, bgTasks := 0 }
    "https://x.daily.co/r1" "ut" "bt" rfl

/-- C7: acquiring from a non-empty buffer returns the head entry, removes
it, and leaves exactly the former tail, in both pool implementations;
each such acquisition schedules one background replenishment. -/
theorem getRoom_pops_head (env : ProvisionEnv) (s : VoiceAI.PoolState)
    (t : IV.PoolState) (r : RoomEntry) (rest : List RoomEntry)
    (hs : s.pool = r :: rest) (ht : t.pool = r :: rest) :
    VoiceAI.getRoom env s
      = .ok r { s with pool := rest, lockHeld := false,
                       bgTasks := s.bgTasks + 1 } ∧
    IV.getRoom t = .ok r { t with pool := rest, bgTasks := t.bgTasks + 1 } := by
  constructor
  · unfold VoiceAI.getRoom
    simp [hs]
  · unfold IV.getRoom
    simp [ht]

/-- Witness for C7 at a concrete two-entry pool. -/
theorem getRoom_pops_head_w :
    VoiceAI.getRoom ⟨none, none, none⟩
        { pool := [⟨"https://x.daily.co/r1", "u1", "b1"⟩,
                   ⟨"https://x.daily.co/r2", "u2", "b2"⟩],
          lockHeld := false, deletes := [], addRoomCalls := 0, bgTasks := 0 }
      = .ok ⟨"https://x.daily.co/r1", "u1", "b1"⟩
          { pool := [⟨"https://x.daily.co/r2", "u2", "b2"⟩],
            lockHeld := false, deletes := [], addRoomCalls := 0, bgTasks := 1 } ∧
    IV.getRoom
        { pool := [⟨"https://x.daily.co/r1", "u1", "b1"⟩,
                   ⟨"https://x.daily.co/r2", "u2", "b2"⟩],
          deletes := [], addRoomCalls := 0, bgTasks := 0 }
      = .ok ⟨"https://x.daily.co/r1", "u1", "b1"⟩
          { pool := [⟨"https://x.daily.co/r2", "u2", "b2"⟩],
            deletes := [], addRoomCalls := 0, bgTasks := 1 } :=
  getRoom_pops_head ⟨none, none, none⟩
    { pool := [⟨"https://x.daily.co/r1", "u1", "b1"⟩,
               ⟨"https://x.daily.co/r2", "u2", "b2"⟩],
      lockHeld := false, deletes := [], addRoomCalls := 0, bgTasks := 0 }
    { pool := [⟨"https://x.daily.co/r1", "u1", "b1"⟩,
               ⟨"https://x.daily.co/r2", "u2", "b2"⟩],
      deletes := [], addRoomCalls := 0, bgTasks := 0 }
    ⟨"https://x.daily.co/r1", "u1", "b1"⟩
    [⟨"https://x.daily.co/r2", "u2", "b2"⟩] rfl rfl

/-- C9: `disconnect` on a session id absent from the registry returns
success and leaves the whole server state — registry, pool buffer and
delete record — unchanged. -/
theorem disconnect_unknown_id_noop (sid : String) (s : VoiceAI.ServerState)
    (h : sid ∉ s.activeBots) :
    VoiceAI.disconnect sid s = (true, s) := by
  unfold VoiceAI.disconnect
  simp [h]

/-- Witness for C9 at a concrete state with one other session. -/
theorem disconnect_unknown_id_noop_w :
    VoiceAI.disconnect "missing-sid"
        { activeBots := ["other-sid"],
          poolState := { pool := [], lockHeld := false, deletes := [],
                         addRoomCalls := 0, bgTasks := 0 } }
      = (true,
         { activeBots := ["other-sid"],
           poolState := { pool := [], lockHeld := false, deletes := [],
                          addRoomCalls := 0, bgTasks := 0 } }) :=
  disconnect_unknown_id_noop "missing-sid"
    { activeBots := ["other-sid"],
      poolState := { pool := [], lockHeld := false, deletes := [],
                     addRoomCalls := 0, bgTasks := 0 } }
    (by decide)

/-- C1 (amended): within the instant-voice server a destroy is issued at
most once per session.  Whichever of the worker-exit monitor and the
shutdown cleanup pops the room mapping first issues the single delete,
and in either serialisation order of the two critical sections the
combined effect is exactly one delete of the mapped room.  The
exactly-once claim itself fails, because zero destroys are also
possible: see the counterexample. -/
theorem release_at_most_once (s : IV.BotState) (pid : Nat) (url : String)
    (hm : IV.lookupKey pid s.roomMappings = some url) (hp : pid ∈ s.botProcs) :
    (IV.cleanupEntry pid true (IV.monitorFinish pid s)).deletes
        = s.deletes ++ [url] ∧
    (IV.monitorFinish pid (IV.cleanupEntry pid true s)).deletes
        = s.deletes ++ [url] := by
  constructor
  · unfold IV.monitorFinish
    simp only [hp, if_true, hm]
    unfold IV.cleanupEntry
    simp [lookup_removeKey]
  · unfold IV.cleanupEntry
    simp only [hm]
    unfold IV.monitorFinish
    simp [hp, lookup_removeKey]

/-- Witness for the amended C1 at a concrete one-session state. -/
theorem release_at_most_once_w :
    (IV.cleanupEntry 7 true (IV.monitorFinish 7
        { botProcs := [7], roomMappings := [(7, "https://x.daily.co/r1")],
          deletes := [], terms := [], kills := [] })).deletes
      = [] ++ ["https://x.daily.co/r1"] ∧
    (IV.monitorFinish 7 (IV.cleanupEntry 7 true
        { botProcs := [7], roomMappings := [(7, "https://x.daily.co/r1")],
          deletes := [], terms := [], kills := [] })).deletes
      = [] ++ ["https://x.daily.co/r1"] :=
  release_at_most_once
    { botProcs := [7], roomMappings := [(7, "https://x.daily.co/r1")],
      deletes := [], terms := [], kills := [] }
    7 "https://x.daily.co/r1" rfl (by decide)

/-- C1 counterexample: a session whose worker misses the shutdown timeout
ends — both manager maps are cleared — with zero destroy calls for its
room, refuting the never-zero half of the exactly-once claim. -/
theorem session_end_without_destroy :
    IV.botCleanup (fun _ => false)
        { botProcs := [7], roomMappings := [(7, "https://x.daily.co/r1")],
          deletes := [], terms := [], kills := [] }
      = { botProcs := [], roomMappings := [],
          deletes := [], terms := [7], kills := [] } := by
  rfl

/-- C2 counterexample: the instant-voice `get_room` on an empty pool makes
zero `add_room` attempts — the state, counter included, is returned
untouched — and fails at once, refuting the claimed single synchronous
on-demand attempt. -/
theorem iv_empty_pool_no_fallback_attempt :
    IV.getRoom { pool := [], deletes := [], addRoomCalls := 0, bgTasks := 0 }
      = .httpError 503 "No available rooms"
          { pool := [], deletes := [], addRoomCalls := 0, bgTasks := 0 } := rfl

/-- C2 (amended): the voice-ai-service `get_room` on an empty buffer makes
exactly one synchronous `add_room` attempt and never hands out an entry;
whenever any of the three provisioning calls of that attempt fails, the
call raises the 503 pool-exhausted error.  The instant-voice `get_room`
instead makes no attempt at all and raises the 503 immediately. -/
theorem empty_pool_acquire_behaviour (env : ProvisionEnv)
    (s : VoiceAI.PoolState) (t : IV.PoolState)
    (hs : s.pool = []) (ht : t.pool = []) :
    (VoiceAI.getRoom env s).state.addRoomCalls = s.addRoomCalls + 1 ∧
    (VoiceAI.getRoom env s).isOk = false ∧
    ((env.createRoom = none ∨ env.userTok = none ∨ env.botTok = none) →
      VoiceAI.getRoom env s
        = .httpError 503 "No available rooms" (VoiceAI.getRoom env s).state) ∧
    IV.getRoom t = .httpError 503 "No available rooms" t := by
  obtain ⟨cr, ut, bt⟩ := env
  refine ⟨?_, ?_, ?_, ?_⟩
  · cases cr <;> cases ut <;> cases bt <;>
      simp [VoiceAI.getRoom, VoiceAI.addRoom, VoiceAI.GetRoomResult.state, hs]
  · cases cr <;> cases ut <;> cases bt <;>
      simp [VoiceAI.getRoom, VoiceAI.addRoom, VoiceAI.GetRoomResult.isOk, hs]
  · intro hd
    cases cr with
    | none =>
      simp [VoiceAI.getRoom, VoiceAI.addRoom, VoiceAI.GetRoomResult.state, hs]
    | some url =>
      cases ut with
      | none =>
        cases bt <;>
          simp [VoiceAI.getRoom, VoiceAI.addRoom, VoiceAI.GetRoomResult.state, hs]
      | some u =>
        cases bt with
        | none =>
          simp [VoiceAI.getRoom, VoiceAI.addRoom, VoiceAI.GetRoomResult.state, hs]
        | some b => rcases hd with h | h | h <;> simp at h
  · unfold IV.getRoom
    simp [ht]

/-- Witness for the amended C2 at a concrete empty pool, with all three
provisioning calls failing. -/
theorem empty_pool_acquire_behaviour_w :
    (VoiceAI.getRoom ⟨none, none, none⟩
        { pool := [], lockHeld := false, deletes := [],
          addRoomCalls := 0, bgTasks := 0 }).state.addRoomCalls = 0 + 1 ∧
    (VoiceAI.getRoom ⟨none, none, none⟩
        { pool := [], lockHeld := false, deletes := [],
          addRoomCalls := 0, bgTasks := 0 }).isOk = false ∧
    VoiceAI.getRoom ⟨none, none, none⟩
        { pool := [], lockHeld := false, deletes := [],
          addRoomCalls := 0, bgTasks := 0 }
      = .httpError 503 "No available rooms"
          (VoiceAI.getRoom ⟨none, none, none⟩
            { pool := [], lockHeld := false, deletes := [],
              addRoomCalls := 0, bgTasks := 0 }).state ∧
    IV.getRoom { pool := [], deletes := [], addRoomCalls := 3, bgTasks := 0 }
      = .httpError 503 "No available rooms"
          { pool := [], deletes := [], addRoomCalls := 3, bgTasks := 0 } :=
  have h := empty_pool_acquire_behaviour ⟨none, none, none⟩
    { pool := [], lockHeld := false, deletes := [],
      addRoomCalls := 0, bgTasks := 0 }
    { pool := [], deletes := [], addRoomCalls := 3, bgTasks := 0 } rfl rfl
  ⟨h.1, h.2.1, h.2.2.1 (Or.inl rfl), h.2.2.2⟩

/-- C4 counterexample: the instant-voice `add_room` with a successful room
creation and a failed user-token mint issues no delete call — the fresh
room is orphaned — refuting the claimed destroy-before-return. -/
theorem iv_add_room_orphans_room_on_mint_failure :
    IV.addRoom ⟨some "https://x.daily.co/r1", none, some "bt"⟩
        { pool := [], deletes := [], addRoomCalls := 0, bgTasks := 0 }
      = { pool := [], deletes := [], addRoomCalls := 1, bgTasks := 0 } := rfl

/-- C4 (amended): when room creation succeeds and a token mint fails, the
voice-ai-service `add_room` deletes the fresh room and leaves the buffer
unchanged, as claimed; the instant-voice `add_room` also leaves the
buffer unchanged but never issues the delete, orphaning the room. -/
theorem add_room_mint_failure (env : ProvisionEnv) (s : VoiceAI.PoolState)
    (t : IV.PoolState) (url : String) (hc : env.createRoom = some url)
    (hf : env.userTok = none ∨ env.botTok = none) :
    VoiceAI.addRoom env s
      = .done { s with addRoomCalls := s.addRoomCalls + 1,
                       deletes := s.deletes ++ [url] } ∧
    IV.addRoom env t = { t with addRoomCalls := t.addRoomCalls + 1 } := by
  obtain ⟨cr, ut, bt⟩ := env
  simp only at hc hf
  subst hc
  rcases hf with h | h
  · subst h
    cases bt <;> simp [VoiceAI.addRoom, IV.addRoom]
  · subst h
    cases ut <;> simp [VoiceAI.addRoom, IV.addRoom]

/-- Witness for the amended C4 at a concrete failing bot-token mint. -/
theorem add_room_mint_failure_w :
    VoiceAI.addRoom ⟨some "https://x.daily.co/r1", some "ut", none⟩
        { pool := [], lockHeld := false, deletes := [],
          addRoomCalls := 0, bgTasks := 0 }
      = .done { pool := [], lockHeld := false,
                deletes := [] ++ ["https://x.daily.co/r1"],
                addRoomCalls := 0 + 1, bgTasks := 0 } ∧
    IV.addRoom ⟨some "https://x.daily.co/r1", some "ut", none⟩
        { pool := [], deletes := [], addRoomCalls := 0, bgTasks := 0 }
      = { pool := [], deletes := [], addRoomCalls := 0 + 1, bgTasks := 0 } :=
  add_room_mint_failure ⟨some "https://x.daily.co/r1", some "ut", none⟩
    { pool := [], lockHeld := false, deletes := [],
      addRoomCalls := 0, bgTasks := 0 }
    { pool := [], deletes := [], addRoomCalls := 0, bgTasks := 0 }
    "https://x.daily.co/r1" rfl (Or.inr rfl)

/-- Helper: on an empty buffer, whenever any of the three provisioning
calls of the on-demand attempt fails, `get_room` raises the 503
pool-exhausted error. -/
theorem getRoom_empty_fail (env : ProvisionEnv) (s : VoiceAI.PoolState)
    (hs : s.pool = [])
    (hf : env.createRoom = none ∨ env.userTok = none ∨ env.botTok = none) :
    VoiceAI.getRoom env s
      = .httpError 503 "No available rooms" (VoiceAI.getRoom env s).state := by
  obtain ⟨cr, ut, bt⟩ := env
  cases cr with
  | none =>
    simp [VoiceAI.getRoom, VoiceAI.addRoom, VoiceAI.GetRoomResult.state, hs]
  | some url =>
    cases ut with
    | none =>
      cases bt <;>
        simp [VoiceAI.getRoom, VoiceAI.addRoom, VoiceAI.GetRoomResult.state, hs]
    | some u =>
      cases bt with
      | none =>
        simp [VoiceAI.getRoom, VoiceAI.addRoom, VoiceAI.GetRoomResult.state, hs]
      | some b =>
        simp only at hf
        rcases hf with h | h | h <;> simp at h

/-- C5 counterexample: the instant-voice connect with a successful acquire
and a failed bot spawn returns the error while its pool state records no
delete call — the popped room is leaked, refuting the claimed
destroy-before-error. -/
theorem iv_connect_start_failure_leaks :
    IV.botConnect false "boom" 7
        { pool := [⟨"https://x.daily.co/r1", "u1", "b1"⟩],
          deletes := [], addRoomCalls := 0, bgTasks := 0 }
        { botProcs := [], roomMappings := [], deletes := [],
          terms := [], kills := [] }
      = (.jsonError "500: Failed to start subprocess: boom",
         { pool := [], deletes := [], addRoomCalls := 0, bgTasks := 1 },
         { botProcs := [], roomMappings := [], deletes := [],
           terms := [], kills := [] }) := rfl

/-- C5 (amended): when starting the worker fails after a successful
acquire, the error is returned but the acquired room is not destroyed:
the room has left the pool, no delete call is issued for it, and the bot
manager state is untouched — the room leaks. -/
theorem start_failure_leaks_room (e : String) (pid : Nat) (ps : IV.PoolState)
    (bs : IV.BotState) (r : RoomEntry) (rest : List RoomEntry)
    (h : ps.pool = r :: rest) :
    IV.botConnect false e pid ps bs
      = (.jsonError ("500: Failed to start subprocess: " ++ e),
         { ps with pool := rest, bgTasks := ps.bgTasks + 1 }, bs) := by
  unfold IV.botConnect IV.getRoom
  simp [h]

/-- Witness for the amended C5 at a concrete one-entry pool. -/
theorem start_failure_leaks_room_w :
    IV.botConnect false "boom" 7
        { pool := [⟨"https://x.daily.co/r2", "u2", "b2"⟩],
          deletes := ["earlier"], addRoomCalls := 0, bgTasks := 0 }
        { botProcs := [3], roomMappings := [(3, "https://x.daily.co/r0")],
          deletes := [], terms := [], kills := [] }
      = (.jsonError ("500: Failed to start subprocess: " ++ "boom"),
         { pool := [], deletes := ["earlier"], addRoomCalls := 0, bgTasks := 1 },
         { botProcs := [3], roomMappings := [(3, "https://x.daily.co/r0")],
           deletes := [], terms := [], kills := [] }) :=
  start_failure_leaks_room "boom" 7
    { pool := [⟨"https://x.daily.co/r2", "u2", "b2"⟩],
      deletes := ["earlier"], addRoomCalls := 0, bgTasks := 0 }
    { botProcs := [3], roomMappings := [(3, "https://x.daily.co/r0")],
      deletes := [], terms := [], kills := [] }
    ⟨"https://x.daily.co/r2", "u2", "b2"⟩ [] rfl

/-- C6 counterexample: the voice-ai-service connect on an exhausted pool
with failing on-demand creation responds with status 500 — the blanket
handler rewraps the 503 — and a detail string, not the claimed 503 with
body error "No available rooms". -/
theorem connect_exhausted_wrong_status :
    VoiceAI.connect ⟨none, none, none⟩ "sid0"
        { activeBots := [],
          poolState := { pool := [], lockHeld := false, deletes := [],
                         addRoomCalls := 0, bgTasks := 0 } }
      = .httpError 500 "503: No available rooms"
          { activeBots := [],
            poolState := { pool := [], lockHeld := false, deletes := [],
                           addRoomCalls := 1, bgTasks := 0 } } := rfl

/-- C6 (amended): when the pool is exhausted and the on-demand creation
fails, the voice-ai-service connect responds 500 with detail
"503: No available rooms"; on success it returns session_id, room_url and
the user token as claimed.  The instant-voice connect returns its
exhaustion error as a 200 JSON body carrying the stringified 503, and its
success payload has no session id at all. -/
theorem connect_response_shape (env : ProvisionEnv) (sid : String)
    (s1 s2 : VoiceAI.ServerState) (r : RoomEntry) (rest : List RoomEntry)
    (t : IV.PoolState) (bs : IV.BotState) (ok : Bool) (e : String) (pid : Nat)
    (h1 : s1.poolState.pool = [])
    (hf : env.createRoom = none ∨ env.userTok = none ∨ env.botTok = none)
    (h2 : s2.poolState.pool = r :: rest) (ht : t.pool = []) :
    VoiceAI.connect env sid s1
      = .httpError 500 "503: No available rooms"
          (VoiceAI.connect env sid s1).state ∧
    VoiceAI.connect env sid s2
      = .ok sid r.room_url r.user_token (VoiceAI.connect env sid s2).state ∧
    IV.botConnect ok e pid t bs
      = (.jsonError "503: No available rooms", t, bs) := by
  refine ⟨?_, ?_, ?_⟩
  · have hg := getRoom_empty_fail env s1.poolState h1 hf
    unfold VoiceAI.connect
    rw [hg]
    rfl
  · unfold VoiceAI.connect VoiceAI.getRoom
    simp [h2, VoiceAI.ConnectResult.state, VoiceAI.GetRoomResult.state]
  · unfold IV.botConnect IV.getRoom
    simp only [ht]
    rfl

/-- Witness for the amended C6 at concrete exhausted and one-entry
states. -/
theorem connect_response_shape_w :
    VoiceAI.connect ⟨none, some "ut", some "bt"⟩ "sid1"
        { activeBots := [],
          poolState := { pool := [], lockHeld := false, deletes := [],
                         addRoomCalls := 0, bgTasks := 0 } }
      = .httpError 500 "503: No available rooms"
          (VoiceAI.connect ⟨none, some "ut", some "bt"⟩ "sid1"
            { activeBots := [],
              poolState := { pool := [], lockHeld := false, deletes := [],
                             addRoomCalls := 0, bgTasks := 0 } }).state ∧
    VoiceAI.connect ⟨none, some "ut", some "bt"⟩ "sid1"
        { activeBots := [],
          poolState := { pool := [⟨"https://x.daily.co/r1", "u1", "b1"⟩],
                         lockHeld := false, deletes := [],
                         addRoomCalls := 0, bgTasks := 0 } }
      = .ok "sid1" "https://x.daily.co/r1" "u1"
          (VoiceAI.connect ⟨none, some "ut", some "bt"⟩ "sid1"
            { activeBots := [],
              poolState := { pool := [⟨"https://x.daily.co/r1", "u1", "b1"⟩],
                             lockHeld := false, deletes := [],
                             addRoomCalls := 0, bgTasks := 0 } }).state ∧
    IV.botConnect true "" 7
        { pool := [], deletes := [], addRoomCalls := 0, bgTasks := 0 }
        { botProcs := [], roomMappings := [], deletes := [],
          terms := [], kills := [] }
      = (.jsonError "503: No available rooms",
         { pool := [], deletes := [], addRoomCalls := 0, bgTasks := 0 },
         { botProcs := [], roomMappings := [], deletes := [],
           terms := [], kills := [] }) :=
  connect_response_shape ⟨none, some "ut", some "bt"⟩ "sid1"
    { activeBots := [],
      poolState := { pool := [], lockHeld := false, deletes := [],
                     addRoomCalls := 0, bgTasks := 0 } }
    { activeBots := [],
      poolState := { pool := [⟨"https://x.daily.co/r1", "u1", "b1"⟩],
                     lockHeld := false, deletes := [],
                     addRoomCalls := 0, bgTasks := 0 } }
    ⟨"https://x.daily.co/r1", "u1", "b1"⟩ []
    { pool := [], deletes := [], addRoomCalls := 0, bgTasks := 0 }
    { botProcs := [], roomMappings := [], deletes := [],
      terms := [], kills := [] }
    true "" 7 rfl (Or.inl rfl) rfl rfl

/-- C8 counterexample: the instant-voice `cleanup` on a one-entry pool
leaves that entry in the buffer — the buffer is not empty after the
drain, refuting the claim. -/
theorem iv_cleanup_buffer_not_emptied :
    (IV.cleanup { pool := [⟨"https://x.daily.co/r1", "u1", "b1"⟩],
                  deletes := [], addRoomCalls := 0, bgTasks := 0 }).pool
      = [⟨"https://x.daily.co/r1", "u1", "b1"⟩] := rfl

/-- C8 (amended): the voice-ai-service `cleanup` issues one delete per
entry that was present and empties the buffer, as claimed; the
instant-voice `cleanup` issues one delete per entry but leaves the buffer
contents in place. -/
theorem cleanup_deletes_each_entry (s : VoiceAI.PoolState) (t : IV.PoolState) :
    (VoiceAI.cleanup s).pool = [] ∧
    (VoiceAI.cleanup s).deletes
        = s.deletes ++ s.pool.map (fun r => r.room_url) ∧
    (IV.cleanup t).deletes = t.deletes ++ t.pool.map (fun r => r.room_url) ∧
    (IV.cleanup t).pool = t.pool := ⟨rfl, rfl, rfl, rfl⟩

/-- C10 counterexample: a shutdown cleanup iteration whose worker misses
the 5-unit timeout sends the terminate signal but then neither
force-kills the worker nor performs the release: no kill and no delete is
recorded and the room mapping is still in place. -/
theorem terminate_timeout_no_kill_no_release :
    IV.cleanupEntry 7 false
        { botProcs := [7], roomMappings := [(7, "https://x.daily.co/r1")],
          deletes := [], terms := [], kills := [] }
      = { botProcs := [7], roomMappings := [(7, "https://x.daily.co/r1")],
          deletes := [], terms := [7], kills := [] } := rfl

/-- C10 (amended): the shutdown path signals the worker and waits up to
the 5-unit timeout; when the worker exits in time the release is
performed, but when the timeout is exceeded the code only logs — the
state change is exactly the terminate signal, with no forced kill and no
release, and no path ever records a forced kill. -/
theorem terminate_timeout_behaviour (s : IV.BotState) (pid : Nat) :
    IV.cleanupEntry pid false s = { s with terms := s.terms ++ [pid] } ∧
    (∀ url, IV.lookupKey pid s.roomMappings = some url →
      (IV.cleanupEntry pid true s).deletes = s.deletes ++ [url]) ∧
    (∀ b, (IV.cleanupEntry pid b s).kills = s.kills) := by
  refine ⟨rfl, ?_, ?_⟩
  · intro url h
    unfold IV.cleanupEntry
    simp [h]
  · intro b
    cases b with
    | false => rfl
    | true =>
      cases hl : IV.lookupKey pid s.roomMappings <;>
        simp [IV.cleanupEntry, hl]

/-- Witness for the amended C10 at a concrete one-session state. -/
theorem terminate_timeout_behaviour_w :
    IV.cleanupEntry 7 false
        { botProcs := [7], roomMappings := [(7, "https://x.daily.co/r2")],
          deletes := [], terms := [3], kills := [] }
      = { botProcs := [7], roomMappings := [(7, "https://x.daily.co/r2")],
          deletes := [], terms := [3] ++ [7], kills := [] } ∧
    (IV.cleanupEntry 7 true
        { botProcs := [7], roomMappings := [(7, "https://x.daily.co/r2")],
          deletes := [], terms := [3], kills := [] }).deletes
      = [] ++ ["https://x.daily.co/r2"] ∧
    (IV.cleanupEntry 7 true
        { botProcs := [7], roomMappings := [(7, "https://x.daily.co/r2")],
          deletes := [], terms := [3], kills := [] }).kills = [] :=
  have h := terminate_timeout_behaviour
    { botProcs := [7], roomMappings := [(7, "https://x.daily.co/r2")],
      deletes := [], terms := [3], kills := [] } 7
  ⟨h.1, h.2.1 "https://x.daily.co/r2" rfl, h.2.2 true⟩
